import Mathlib

/-
Verification of the RBAC core of the `gears` package (src/gears/rbac.py and
src/gears/singleton_meta.py), as a shallow embedding.

Modelling conventions:
* Python dicts are association lists `List (String × α)` with insert-or-replace
  in place (`insertA`), which preserves Python's insertion-order semantics.
* Methods that can raise are `Except RBACErr _`; the distinct exception classes
  of rbac.py are distinct constructors of `RBACErr`.  Exceptions that escape the
  module's own taxonomy (`KeyError` on a dict index, `TypeError` on an
  unhashable key) are modelled by the `pyError` constructor; they occur only in
  branches unreachable through the public registration API.
* Python objects are modelled by value.  RoleBindings store object references
  to the role and entity; since the engine only ever reads `rbind.role` through
  the registry-held role (there is no deletion API and the claims do not
  exercise re-registration aliasing), a binding is modelled by the pair of the
  entity name and the role name, resolved against the registry at read time.
* The `threading.Lock` fields only serialise access; the sequential semantics
  embedded here is the code under the locks.
-/

namespace Gears

/-- Lookup in an association list, the model of `d[k]` / `k in d`. -/
def lookupA {α : Type} : List (String × α) → String → Option α
  | [], _ => none
  | (k', v) :: rest, k => if k' = k then some v else lookupA rest k

/-- Membership test for an association list, the model of `k in d`. -/
def containsA {α : Type} (m : List (String × α)) (k : String) : Bool :=
  (lookupA m k).isSome

/-- Insert-or-replace for an association list, the model of `d[k] = v`.
Replacing keeps the key's original position, as a Python dict does. -/
def insertA {α : Type} : List (String × α) → String → α → List (String × α)
  | [], k, v => [(k, v)]
  | (k', v') :: rest, k, v =>
      if k' = k then (k, v) :: rest else (k', v') :: insertA rest k v

/-- The values of an association list in order, the model of `d.values()`. -/
def valuesA {α : Type} (m : List (String × α)) : List α :=
  m.map (fun kv => kv.2)

/-- Character class `[a-zA-Z0-9_]` of the entity-name regex (rbac.py line 136). -/
def isWordChar (c : Char) : Bool :=
  (('a' ≤ c && c ≤ 'z') || ('A' ≤ c && c ≤ 'Z') || ('0' ≤ c && c ≤ '9')) || c = '_'

/-- Strip a literal character sequence from the front of a list, `none` if the
list does not start with it. -/
def stripLit : List Char → List Char → Option (List Char)
  | [], rest => some rest
  | _, [] => none
  | p :: ps, c :: cs => if c = p then stripLit ps cs else none

/-- The anchored regex `^(user|group):[a-zA-Z0-9_]+$` checked by
`Entity.__post_init__` (rbac.py lines 136-140). -/
def validEntityName (s : String) : Bool :=
  let cs := s.toList
  match stripLit ("user:".toList) cs with
  | some rest => !rest.isEmpty && rest.all isWordChar
  | none =>
    match stripLit ("group:".toList) cs with
    | some rest => !rest.isEmpty && rest.all isWordChar
    | none => false

/-- `PermissionType` (rbac.py lines 59-70), an IntEnum. -/
inductive PermissionType
  | NONE
  | READ
  | WRITE
  | EXECUTE
deriving DecidableEq

/-- The numeric value of each enum member (NONE = 0, READ = 100, WRITE = 200,
EXECUTE = 300); IntEnum comparisons compare these values. -/
def PermissionType.value : PermissionType → Nat
  | .NONE => 0
  | .READ => 100
  | .WRITE => 200
  | .EXECUTE => 300

/-- The enum member's `.name`, used by `Permission.__str__`. -/
def PermissionType.ename : PermissionType → String
  | .NONE => "NONE"
  | .READ => "READ"
  | .WRITE => "WRITE"
  | .EXECUTE => "EXECUTE"

/-- `Permission` (rbac.py lines 73-101): a frozen dataclass of a name and a
level. -/
structure Permission where
  name : String
  level : PermissionType
deriving DecidableEq

/-- `Permission.__str__` (rbac.py lines 85-86): `f"{self.name}:{self.level.name}"`. -/
def Permission.toStr (p : Permission) : String :=
  p.name ++ ":" ++ p.level.ename

/-- `Permission.__eq__` (rbac.py lines 94-95), for `a == b` with `a` the left
operand (`self`) and `b` the right operand (`other`):
`self.name == other.name and self.level >= other.level`. -/
def Permission.eq (a b : Permission) : Bool :=
  a.name == b.name && decide (b.level.value ≤ a.level.value)

/-- `Role` (rbac.py lines 104-126): a name and a dict from `"name:LEVEL"`
strings to permissions.  The `_lock` field is elided (see header). -/
structure Role where
  name : String
  permissions : List (String × Permission)
deriving DecidableEq

/-- `Role.attach_permission` (rbac.py lines 117-120):
`self.permissions[str(permission)] = permission`. -/
def Role.attach_permission (r : Role) (p : Permission) : Role :=
  { r with permissions := insertA r.permissions p.toStr p }

/-- `Role.can_do` (rbac.py lines 122-126):
`pname in self.permissions and self.permissions[pname] == permission`, where
`pname = str(permission)` is the exact `name:LEVEL` key of the REQUIRED
permission. -/
def Role.can_do (r : Role) (permission : Permission) : Bool :=
  let pname := permission.toStr
  match lookupA r.permissions pname with
  | some q => Permission.eq q permission
  | none => false

/-- `User` (rbac.py lines 143-155): `__post_init__` prefixes the raw name with
`user:`; the stored `name` field is the prefixed name. -/
structure User where
  name : String
deriving DecidableEq

/-- `User(name=uname)`: prefix and validate (ValueError on regex failure). -/
def User.make (uname : String) : Except String User :=
  let n := "user:" ++ uname
  if validEntityName n then .ok ⟨n⟩
  else .error ("Invalid entity name - " ++ n ++
    ". Entity names are checked with ^(user|group):[a-zA-Z0-9_]+$")

/-- `Group` (rbac.py lines 158-187): prefixed name plus a dict from user name
to `User`. -/
structure Group where
  name : String
  users : List (String × User)
deriving DecidableEq

/-- `Group(name=gname)`: prefix and validate (ValueError on regex failure). -/
def Group.make (gname : String) : Except String Group :=
  let n := "group:" ++ gname
  if validEntityName n then .ok ⟨n, []⟩
  else .error ("Invalid entity name - " ++ n ++
    ". Entity names are checked with ^(user|group):[a-zA-Z0-9_]+$")

/-- The `Entity` class hierarchy (rbac.py lines 129-187): a value is a `User`,
a `Group`, or a bare `Entity` instance (constructible directly, as the tests
do with `Entity("user:test_entity")`). -/
inductive Entity
  | user (u : User)
  | group (g : Group)
  | plain (name : String)
deriving DecidableEq

/-- The `name` attribute of any entity. -/
def Entity.name : Entity → String
  | .user u => u.name
  | .group g => g.name
  | .plain n => n

/-- The error taxonomy of rbac.py (lines 31-57) plus the two escapes described
in the file header: `valueError` is the ValueError of `Entity.__post_init__`,
`pyError` stands for a `KeyError`/`TypeError` escaping from dict operations in
branches that the public API cannot reach. -/
inductive RBACErr
  | entityNotFound (msg : String)
  | permissionNotFound (msg : String)
  | roleNotFound (msg : String)
  | valueError (msg : String)
  | pyError (msg : String)
deriving DecidableEq

/-- `Group.has_entity` (rbac.py lines 182-187): a membership Bool for a `User`
argument, `RBACEntityNotFound` for every other entity.  The message abbreviates
the dataclass repr of the argument to its name. -/
def Group.has_entity (g : Group) (e : Entity) : Except RBACErr Bool :=
  match e with
  | .user u => .ok (containsA g.users u.name)
  | _ => .error (.entityNotFound ("Entity " ++ e.name ++ " is not suported"))

/-- `RoleBinding` (rbac.py lines 190-194).  The source stores object references
to the entity and the role; modelled by their names, resolved against the
registry at read time (see header). -/
structure RoleBinding where
  entityName : String
  roleName : String
deriving DecidableEq

/-- A `Entity | str` argument (the polymorphic references accepted across the
RBAC API). -/
inductive EntRef
  | byName (s : String)
  | byEnt (e : Entity)
deriving DecidableEq

/-- A `Permission | str` argument. -/
inductive PermRef
  | byStr (s : String)
  | byPerm (p : Permission)
deriving DecidableEq

/-- A `Role | str` argument. -/
inductive RoleRef
  | byName (s : String)
  | byRole (r : Role)
deriving DecidableEq

/-- The state of the `RBAC` singleton (rbac.py lines 204-211): five string-keyed
mappings (bindings carried twice, indexed by entity name and by role name). -/
structure RBACState where
  roles : List (String × Role)
  permissions : List (String × Permission)
  users : List (String × User)
  groups : List (String × Group)
  rbindToEnt : List (String × List RoleBinding)
  rbindToRole : List (String × List RoleBinding)
deriving DecidableEq

/-- `RBAC.__init__` (rbac.py lines 204-211): all mappings empty. -/
def rbacInit : RBACState := ⟨[], [], [], [], [], []⟩

/-- `RBAC._check_entity` (rbac.py lines 213-219): take `entity.name` for an
object, the raw string otherwise, and require membership in `_users` or
`_groups`. -/
def check_entity (st : RBACState) (entity : EntRef) : Except RBACErr Unit :=
  let n := match entity with | .byEnt e => e.name | .byName s => s
  if containsA st.users n || containsA st.groups n then .ok ()
  else .error (.entityNotFound ("Entity " ++ n ++ " is not found"))

/-- `RBAC._check_permission` (rbac.py lines 221-227): key is `str(permission)`
for an object, the raw string otherwise. -/
def check_permission (st : RBACState) (permission : PermRef) : Except RBACErr Unit :=
  let k := match permission with | .byPerm p => p.toStr | .byStr s => s
  if containsA st.permissions k then .ok ()
  else .error (.permissionNotFound ("Permission " ++ k ++ " is not found"))

/-- `RBAC._check_role` (rbac.py lines 229-235). -/
def check_role (st : RBACState) (role : RoleRef) : Except RBACErr Unit :=
  let n := match role with | .byRole r => r.name | .byName s => s
  if containsA st.roles n then .ok ()
  else .error (.roleNotFound ("Role " ++ n ++ " is not found"))

/-- `RBAC.add_user` (rbac.py lines 237-240): `self._users[uname] = User(name=uname)`.
Note the dict key is the BARE `uname` while the stored user's `name` is the
prefixed `user:<uname>`. -/
def add_user (st : RBACState) (uname : String) : Except RBACErr RBACState :=
  match User.make uname with
  | .error e => .error (.valueError e)
  | .ok u => .ok { st with users := insertA st.users uname u }

/-- `RBAC.add_group` (rbac.py lines 242-245): bare key, prefixed stored name,
as for `add_user`. -/
def add_group (st : RBACState) (gname : String) : Except RBACErr RBACState :=
  match Group.make gname with
  | .error e => .error (.valueError e)
  | .ok g => .ok { st with groups := insertA st.groups gname g }

/-- `RBAC.get_entity` (rbac.py lines 247-253): check, then for a string return
`self._users[entity] if entity in self._users else self._groups[entity]`, and
for an object return it unchanged. -/
def get_entity (st : RBACState) (entity : EntRef) : Except RBACErr Entity :=
  match check_entity st entity with
  | .error e => .error e
  | .ok _ =>
    match entity with
    | .byEnt e => .ok e
    | .byName s =>
      match lookupA st.users s with
      | some u => .ok (.user u)
      | none =>
        match lookupA st.groups s with
        | some g => .ok (.group g)
        | none => .error (.pyError ("KeyError: " ++ s))

/-- `user if isinstance(user, User) else self._users[user]`
(rbac.py line 260).  A non-`User` object reaches the dict index and is
unhashable; this and the missing-key case are `pyError` (unreachable once
`_check_entity` has passed, because registry keys are bare names while object
names are prefixed). -/
def resolveUserArg (st : RBACState) (user : EntRef) : Except RBACErr User :=
  match user with
  | .byEnt (Entity.user u) => .ok u
  | .byEnt e => .error (.pyError ("TypeError: unhashable entity " ++ e.name))
  | .byName s =>
    match lookupA st.users s with
    | some u => .ok u
    | none => .error (.pyError ("KeyError: " ++ s))

/-- `RBAC.add_user_to_group` (rbac.py lines 255-262): check both, resolve both
(strings through the registries, objects used as-is), then
`group.add_user(user)` i.e. `group.users[user.name] = user`.  When the group is
a non-registry object the mutation is invisible to the registry; that branch is
unreachable through the public API (see `resolveUserArg`). -/
def add_user_to_group (st : RBACState) (user group : EntRef) : Except RBACErr RBACState :=
  match check_entity st user with
  | .error e => .error e
  | .ok _ =>
  match check_entity st group with
  | .error e => .error e
  | .ok _ =>
  match resolveUserArg st user with
  | .error e => .error e
  | .ok u =>
    match group with
    | .byEnt (Entity.group _) => .ok st
    | .byEnt e => .error (.pyError ("TypeError: unhashable entity " ++ e.name))
    | .byName s =>
      match lookupA st.groups s with
      | some g =>
          let g2 : Group := { g with users := insertA g.users u.name u }
          .ok { st with groups := insertA st.groups s g2 }
      | none => .error (.pyError ("KeyError: " ++ s))

/-- `RBAC.add_permission` (rbac.py lines 264-268): store under `str(permission)`. -/
def add_permission (st : RBACState) (pname : String) (plevel : PermissionType) : RBACState :=
  let p : Permission := ⟨pname, plevel⟩
  { st with permissions := insertA st.permissions p.toStr p }

/-- `RBAC.get_permission` (rbac.py lines 270-276): check, then pass an object
through unchanged or look a string up in `_permissions`. -/
def get_permission (st : RBACState) (permission : PermRef) : Except RBACErr Permission :=
  match check_permission st permission with
  | .error e => .error e
  | .ok _ =>
    match permission with
    | .byPerm p => .ok p
    | .byStr s =>
      match lookupA st.permissions s with
      | some p => .ok p
      | none => .error (.pyError ("KeyError: " ++ s))

/-- `RBAC.add_role` (rbac.py lines 278-281): store a fresh empty role. -/
def add_role (st : RBACState) (rname : String) : RBACState :=
  { st with roles := insertA st.roles rname ⟨rname, []⟩ }

/-- `RBAC.get_role` (rbac.py lines 283-289). -/
def get_role (st : RBACState) (role : RoleRef) : Except RBACErr Role :=
  match check_role st role with
  | .error e => .error e
  | .ok _ =>
    match role with
    | .byRole r => .ok r
    | .byName s =>
      match lookupA st.roles s with
      | some r => .ok r
      | none => .error (.pyError ("KeyError: " ++ s))

/-- `RBAC.add_permission_to_role` (rbac.py lines 291-297): resolve both, then
`role.attach_permission(permission)`.  The source mutates the role object; the
registry entry under the role's name is the referent (see header). -/
def add_permission_to_role (st : RBACState) (permission : PermRef) (role : RoleRef) :
    Except RBACErr RBACState :=
  match get_permission st permission with
  | .error e => .error e
  | .ok p =>
    match get_role st role with
    | .error e => .error e
    | .ok r => .ok { st with roles := insertA st.roles r.name (r.attach_permission p) }

/-- Append a binding to the list at a key, creating the list first if absent:
the two-step `if name not in d: d[name] = []` / `d[name].append(rbind)` of
rbac.py lines 305-311. -/
def appendAt (m : List (String × List RoleBinding)) (k : String) (v : RoleBinding) :
    List (String × List RoleBinding) :=
  match lookupA m k with
  | some l => insertA m k (l ++ [v])
  | none => insertA m k [v]

/-- `RBAC.add_role_to_entity` (rbac.py lines 299-311): resolve entity then
role, build the binding, append it to the entity-indexed and role-indexed
lists without any deduplication. -/
def add_role_to_entity (st : RBACState) (role : RoleRef) (entity : EntRef) :
    Except RBACErr RBACState :=
  match get_entity st entity with
  | .error e => .error e
  | .ok ent =>
    match get_role st role with
    | .error e => .error e
    | .ok r =>
      let rbind : RoleBinding := ⟨ent.name, r.name⟩
      .ok { st with
              rbindToEnt := appendAt st.rbindToEnt ent.name rbind,
              rbindToRole := appendAt st.rbindToRole r.name rbind }

/-- `RBAC._get_flattened_entities` (rbac.py lines 321-332): a group is just
itself; a user is every group whose member dict holds the user's (prefixed)
name, in registry order, followed by the user itself; a bare entity yields
nothing. -/
def get_flattened_entities (st : RBACState) (entity : Entity) : List String :=
  match entity with
  | .group g => [g.name]
  | .user u =>
      ((valuesA st.groups).filter (fun gr => containsA gr.users u.name)).map
        (fun gr => gr.name) ++ [u.name]
  | .plain _ => []

/-- `rbind.role.permissions.values()` (rbac.py line 344), with the role object
reference resolved through the registry (see header); a dangling name yields
nothing (unreachable: bindings are only created for registered roles and
nothing is deleted). -/
def rolePermValues (roles : List (String × Role)) (rname : String) : List Permission :=
  match lookupA roles rname with
  | some r => valuesA r.permissions
  | none => []

/-- `RBAC.get_entity_permissions` (rbac.py lines 334-345): re-resolve the
entity through `get_entity`, flatten it, and extend one list with the
permission values of every binding of every flattened name. -/
def get_entity_permissions (st : RBACState) (entity : EntRef) :
    Except RBACErr (List Permission) :=
  match get_entity st entity with
  | .error e => .error e
  | .ok ent =>
    .ok ((get_flattened_entities st ent).foldl (fun acc en =>
        match lookupA st.rbindToEnt en with
        | some binds =>
            binds.foldl (fun acc2 rb => acc2 ++ rolePermValues st.roles rb.roleName) acc
        | none => acc) [])

/-- The per-entity permission contribution inside `get_entity_permissions`:
for one flattened name, the concatenated permission values of all its bound
roles (empty when the name has no bindings).  This is the body of the
rbac.py lines 340-344 loop for a single `ent`. -/
def entityBindPerms (roles : List (String × Role)) (bmap : List (String × List RoleBinding))
    (en : String) : List Permission :=
  match lookupA bmap en with
  | some binds => binds.flatMap (fun rb => rolePermValues roles rb.roleName)
  | none => []

/-- `RBAC.can_entity_do` (rbac.py lines 363-373): resolve the permission; a
NONE level is immediately true; otherwise resolve the entity and test whether
any held permission `p` satisfies `p == permission` (held permission on the
left of `__eq__`). -/
def can_entity_do (st : RBACState) (entity : EntRef) (permission : PermRef) :
    Except RBACErr Bool :=
  match get_permission st permission with
  | .error e => .error e
  | .ok p =>
    if p.level = PermissionType.NONE then .ok true
    else
      match get_entity st entity with
      | .error e => .error e
      | .ok ent =>
        match get_entity_permissions st (.byEnt ent) with
        | .error e => .error e
        | .ok ps => .ok (ps.any (fun q => Permission.eq q p))

/-- The `SingletonController` metaclass state (singleton_meta.py lines 10-23):
the class-level `_instance` dict from the class (identified by name) to the
one constructed object. -/
structure SingletonController where
  instances : List (String × RBACState)
deriving DecidableEq

/-- `SingletonController.__call__` (singleton_meta.py lines 19-23): under the
class lock, construct and memoise on first call, then always return the
memoised instance.  Construction of an `RBAC` runs `__init__`, i.e. `rbacInit`. -/
def singleton_call (c : SingletonController) (cls : String) :
    RBACState × SingletonController :=
  match lookupA c.instances cls with
  | some inst => (inst, c)
  | none => (rbacInit, ⟨insertA c.instances cls rbacInit⟩)

/-- The satisfaction test `can_entity_do` applies to the permissions collected
from one role: some value of `role.permissions` is `== permission` with the
held value on the left (rbac.py lines 344 and 371-373, restricted to a single
role's contribution). -/
def role_held_satisfies (r : Role) (p : Permission) : Bool :=
  (valuesA r.permissions).any (fun q => Permission.eq q p)

/-- The C1 scenario: register user `alice`, role `reader`, permission
`doc:READ`; attach `doc:READ` to `reader`; bind `alice` to `reader`. -/
def c1Setup : Except RBACErr RBACState := do
  let st ← add_user rbacInit "alice"
  let st := add_role st "reader"
  let st := add_permission st "doc" .READ
  let st ← add_permission_to_role st (.byStr "doc:READ") (.byName "reader")
  let st ← add_role_to_entity st (.byName "reader") (.byName "alice")
  pure st

/-- The C2 scenario: user `bob` is a member of group `eng`, `eng` is bound to
role `writer` which holds `doc:WRITE`; `bob` has no direct binding. -/
def c2Setup : Except RBACErr RBACState := do
  let st ← add_user rbacInit "bob"
  let st ← add_group st "eng"
  let st := add_role st "writer"
  let st := add_permission st "doc" .WRITE
  let st ← add_permission_to_role st (.byStr "doc:WRITE") (.byName "writer")
  let st ← add_user_to_group st (.byName "bob") (.byName "eng")
  let st ← add_role_to_entity st (.byName "writer") (.byName "eng")
  pure st

/-- The C3 scenario: permissions `x:WRITE` and `x:READ` registered; role `wr`
granted only `x:WRITE`, role `rd` granted only `x:READ`. -/
def c3Setup : Except RBACErr RBACState := do
  let st := add_permission rbacInit "x" .WRITE
  let st := add_permission st "x" .READ
  let st := add_role st "wr"
  let st := add_role st "rd"
  let st ← add_permission_to_role st (.byStr "x:WRITE") (.byName "wr")
  let st ← add_permission_to_role st (.byStr "x:READ") (.byName "rd")
  pure st

/-- The C5 witness state: only the permission `pub:NONE` is registered; no
entity exists. -/
def c5Example : RBACState := add_permission rbacInit "pub" .NONE

/-- The C6 scenario: a single registered user `tuser`. -/
def c6Setup : Except RBACErr RBACState := add_user rbacInit "tuser"

/-- The C8 witness state: role `reader` and user `alice` registered. -/
def c8Example : RBACState :=
  ⟨[("reader", ⟨"reader", []⟩)], [], [("alice", ⟨"user:alice"⟩)], [], [], []⟩


/-! Theorems.  Association-list lemmas first, then one theorem per claim
(with counterexamples and witnesses where the claim's status needs them). -/

theorem lookupA_insertA_self {α : Type} (m : List (String × α)) (k : String) (v : α) :
    lookupA (insertA m k v) k = some v := by
  induction m with
  | nil => simp [insertA, lookupA]
  | cons hd tl ih =>
    obtain ⟨k', v'⟩ := hd
    by_cases hk : k' = k
    · simp [insertA, hk, lookupA]
    · simp [insertA, hk, lookupA, ih]

theorem lookupA_insertA_ne {α : Type} (m : List (String × α)) (k k2 : String) (v : α)
    (h : k2 ≠ k) : lookupA (insertA m k v) k2 = lookupA m k2 := by
  induction m with
  | nil => simp [insertA, lookupA, Ne.symm h]
  | cons hd tl ih =>
    obtain ⟨k', v'⟩ := hd
    by_cases hk : k' = k
    · simp [insertA, hk, lookupA, Ne.symm h]
    · simp [insertA, hk, lookupA, ih]

theorem lookupA_appendAt_self (m : List (String × List RoleBinding)) (k : String)
    (v : RoleBinding) :
    lookupA (appendAt m k v) k = some (((lookupA m k).getD []) ++ [v]) := by
  unfold appendAt
  cases h : lookupA m k with
  | some l => simp [lookupA_insertA_self]
  | none => simp [lookupA_insertA_self]

theorem lookupA_appendAt_ne (m : List (String × List RoleBinding)) (k k2 : String)
    (v : RoleBinding) (h : k2 ≠ k) :
    lookupA (appendAt m k v) k2 = lookupA m k2 := by
  unfold appendAt
  cases hm : lookupA m k with
  | some l => exact lookupA_insertA_ne m k k2 _ h
  | none => exact lookupA_insertA_ne m k k2 _ h

/-- C1: the spec's end-to-end grant scenario (register `alice`, `reader`,
`doc:READ`, attach, bind) reaches the binding successfully, but the decision
call `can_entity_do("user:alice", "doc:READ")` raises `RBACEntityNotFound`
instead of returning true: `add_user` keys `_users` by the bare name
`"alice"`, while `_check_entity` looks up the raw prefixed string — and even
the bare-name call fails, because `get_entity_permissions` re-resolves the
`User` object, whose `name` is prefixed.  The repository's own test
`test_can_entity_do` expects `True` here, so this is a code bug, not spec
error. -/
theorem c1_scenario_raises :
    ∃ st, c1Setup = .ok st ∧
      can_entity_do st (.byName "user:alice") (.byStr "doc:READ") =
        .error (.entityNotFound "Entity user:alice is not found") ∧
      can_entity_do st (.byName "alice") (.byStr "doc:READ") =
        .error (.entityNotFound "Entity user:alice is not found") :=
  ⟨_, rfl, rfl, rfl⟩

/-- C2: group inheritance.  After the C2 scenario, `bob` is recorded as a
member of `eng` (whose members dict holds the prefixed key `user:bob`), and
`eng` is bound to `writer` holding `doc:WRITE`; yet `can_entity_do` raises
`RBACEntityNotFound` for every reference to `bob`, for the same bare-vs-prefixed
keying bug as C1.  The repository's own test `test_entity_inheritance` expects
`True`, so this is a code bug. -/
theorem c2_scenario_raises :
    ∃ st, c2Setup = .ok st ∧
      (∃ g, lookupA st.groups "eng" = some g ∧ containsA g.users "user:bob" = true) ∧
      can_entity_do st (.byName "bob") (.byStr "doc:WRITE") =
        .error (.entityNotFound "Entity user:bob is not found") ∧
      can_entity_do st (.byName "user:bob") (.byStr "doc:WRITE") =
        .error (.entityNotFound "Entity user:bob is not found") :=
  ⟨_, rfl, ⟨_, rfl, rfl⟩, rfl, rfl⟩

/-- C3 counterexample: with `x:WRITE` and `x:READ` registered and role `wr`
granted only `x:WRITE`, the code's role-level check `Role.can_do` does NOT
satisfy a requirement of `x:READ` — it looks the required permission's exact
`name:LEVEL` key up in the role's dict first, so the asymmetric `__eq__` is
never consulted across levels.  This refutes the claim's positive half as
stated at the role level. -/
theorem c3_counterexample :
    ((c3Setup.bind (fun st => get_role st (.byName "wr"))).map
      (fun wr => Role.can_do wr ⟨"x", .READ⟩)) = .ok false := rfl

/-- C3 amended: a role granted only P=`x:WRITE` satisfies a requirement of
Q=`x:READ` under the permission scan that `can_entity_do` actually uses
(`role_held_satisfies`: some held permission value `== Q` with the held value
on the left), but NOT under `Role.can_do` (exact-key lookup); a role granted
only Q satisfies a requirement of P under neither check. -/
theorem c3_role_satisfaction :
    ((c3Setup.bind (fun st => get_role st (.byName "wr"))).map (fun wr =>
        (role_held_satisfies wr ⟨"x", .READ⟩, Role.can_do wr ⟨"x", .READ⟩))) =
      .ok (true, false) ∧
    ((c3Setup.bind (fun st => get_role st (.byName "rd"))).map (fun rd =>
        (role_held_satisfies rd ⟨"x", .WRITE⟩, Role.can_do rd ⟨"x", .WRITE⟩))) =
      .ok (false, false) :=
  ⟨rfl, rfl⟩

/-- C4 counterexample: take the required permission A=`x:READ` and the
possessed permission B=`x:WRITE`.  The claim predicts `A == B` (same name and
`B.level >= A.level`), but `Permission.__eq__` compares `self.level >=
other.level`, i.e. the LEFT operand's level against the right's, so `A == B`
is false. -/
theorem c4_counterexample :
    Permission.eq ⟨"x", .READ⟩ ⟨"x", .WRITE⟩ = false ∧
    ("x" : String) = "x" ∧
    PermissionType.READ.value ≤ PermissionType.WRITE.value :=
  ⟨rfl, rfl, by decide⟩

/-- C4 amended: `A == B` holds exactly when `A.name == B.name` and
`A.level >= B.level` (left operand at least the right).  Decision-path call
sites place the possessed permission on the left (`p == permission`), so a
possessed permission satisfies a required one iff its level is at least as
high. -/
theorem c4_permission_eq (a b : Permission) :
    Permission.eq a b = true ↔ (a.name = b.name ∧ b.level.value ≤ a.level.value) := by
  unfold Permission.eq
  simp [Bool.and_eq_true, beq_iff_eq, decide_eq_true_eq]

/-- C5: the NONE fast path.  Whenever the permission reference resolves (is
registered) to a permission of level NONE, `can_entity_do` returns true for
EVERY entity reference — registered or not — without resolving the entity. -/
theorem c5_none_fast_path (st : RBACState) (pr : PermRef) (q : Permission)
    (hq : get_permission st pr = .ok q) (hlvl : q.level = PermissionType.NONE)
    (er : EntRef) : can_entity_do st er pr = .ok true := by
  unfold can_entity_do
  rw [hq]
  simp [hlvl]

/-- C5 witness: with only `pub:NONE` registered and no entity at all,
`can_entity_do("ghost", "pub:NONE")` is true. -/
theorem c5_witness :
    can_entity_do c5Example (.byName "ghost") (.byStr "pub:NONE") = .ok true :=
  c5_none_fast_path c5Example (.byStr "pub:NONE") ⟨"pub", .NONE⟩ rfl rfl (.byName "ghost")

/-- C6: polymorphic entity resolution is broken for two of its three promised
forms.  After `add_user("tuser")`, the bare name resolves, but the prefixed
name `"user:tuser"` and the canonical registered `User` object itself both
raise `RBACEntityNotFound`, because `_users` is keyed by the bare name while
`_check_entity` looks up the raw string / `entity.name`.  The repository's own
`test_get_entity` expects both to succeed, so this is a code bug. -/
theorem c6_polymorphic_resolution_bug :
    ∃ st, c6Setup = .ok st ∧
      get_entity st (.byName "tuser") = .ok (.user ⟨"user:tuser"⟩) ∧
      get_entity st (.byName "user:tuser") =
        .error (.entityNotFound "Entity user:tuser is not found") ∧
      get_entity st (.byEnt (.user ⟨"user:tuser"⟩)) =
        .error (.entityNotFound "Entity user:tuser is not found") :=
  ⟨_, rfl, rfl, rfl, rfl⟩

/-- C7: the not-found taxonomy.  For every state and every key not present in
the respective registry, entity lookup yields `RBACEntityNotFound`, permission
lookup `RBACPermissionNotFound`, and role lookup `RBACRoleNotFound` — three
distinct constructors, never a generic error and never a silent false. -/
theorem c7_not_found_taxonomy (st : RBACState) (k : String) :
    (containsA st.users k = false → containsA st.groups k = false →
      get_entity st (.byName k) =
        .error (.entityNotFound ("Entity " ++ k ++ " is not found"))) ∧
    (containsA st.permissions k = false →
      get_permission st (.byStr k) =
        .error (.permissionNotFound ("Permission " ++ k ++ " is not found"))) ∧
    (containsA st.roles k = false →
      get_role st (.byName k) =
        .error (.roleNotFound ("Role " ++ k ++ " is not found"))) := by
  refine ⟨fun h1 h2 => ?_, fun h => ?_, fun h => ?_⟩
  · unfold get_entity check_entity
    simp [h1, h2]
  · unfold get_permission check_permission
    simp [h]
  · unfold get_role check_role
    simp [h]

/-- C7 witness: the three lookups on the empty registry and the key `ghost`. -/
theorem c7_witness :
    get_entity rbacInit (.byName "ghost") =
      .error (.entityNotFound "Entity ghost is not found") ∧
    get_permission rbacInit (.byStr "ghost") =
      .error (.permissionNotFound "Permission ghost is not found") ∧
    get_role rbacInit (.byName "ghost") =
      .error (.roleNotFound "Role ghost is not found") :=
  ⟨(c7_not_found_taxonomy rbacInit "ghost").1 rfl rfl,
   (c7_not_found_taxonomy rbacInit "ghost").2.1 rfl,
   (c7_not_found_taxonomy rbacInit "ghost").2.2 rfl⟩

/-- C9: the singleton controller.  After any call, every further call for the
same class returns exactly the instance the first call produced and leaves the
controller unchanged — i.e. at most one RBAC instance ever exists, constructed
lazily on first call (`singleton_call` on a fresh controller constructs it; the
controller has no removal operation). -/
theorem c9_singleton_idem (c : SingletonController) (cls : String) :
    singleton_call (singleton_call c cls).2 cls =
      ((singleton_call c cls).1, (singleton_call c cls).2) := by
  cases h : lookupA c.instances cls with
  | some inst => simp [singleton_call, h]
  | none => simp [singleton_call, h, lookupA_insertA_self]

/-- C10: `Group.has_entity` returns a Bool only for a `User` argument; every
other entity (including a `Group`) makes it raise `RBACEntityNotFound`, so
group-in-group membership can never be queried. -/
theorem c10_has_entity_non_user (g : Group) (e : Entity)
    (h : ∀ u : User, e ≠ Entity.user u) :
    Group.has_entity g e =
      .error (.entityNotFound ("Entity " ++ e.name ++ " is not suported")) ∧
    ∀ (g2 : Group) (u : User), ∃ b, Group.has_entity g2 (Entity.user u) = .ok b := by
  constructor
  · cases e with
    | user u => exact absurd rfl (h u)
    | group g2 => rfl
    | plain n => rfl
  · exact fun g2 u => ⟨containsA g2.users u.name, rfl⟩

/-- C10 witness: querying a group for a group raises; querying it for a user
returns a Bool. -/
theorem c10_witness :
    Group.has_entity ⟨"group:h", []⟩ (Entity.group ⟨"group:g", []⟩) =
      .error (.entityNotFound "Entity group:g is not suported") ∧
    ∃ b, Group.has_entity ⟨"group:h", []⟩ (Entity.user ⟨"user:a"⟩) = .ok b :=
  ⟨(c10_has_entity_non_user ⟨"group:h", []⟩ (Entity.group ⟨"group:g", []⟩)
      (fun _ h => Entity.noConfusion h)).1,
   (c10_has_entity_non_user ⟨"group:h", []⟩ (Entity.group ⟨"group:g", []⟩)
      (fun _ h => Entity.noConfusion h)).2 ⟨"group:h", []⟩ ⟨"user:a"⟩⟩

theorem foldl_append_eq {α β : Type} (f : α → List β) (l : List α) (acc : List β) :
    l.foldl (fun a x => a ++ f x) acc = acc ++ l.flatMap f := by
  induction l generalizing acc with
  | nil => simp
  | cons x xs ih => simp [List.foldl_cons, ih, List.flatMap_cons, List.append_assoc]

theorem collect_eq (roles : List (String × Role)) (bmap : List (String × List RoleBinding))
    (reprs : List String) (acc : List Permission) :
    reprs.foldl (fun acc2 en =>
        match lookupA bmap en with
        | some binds => binds.foldl (fun a rb => a ++ rolePermValues roles rb.roleName) acc2
        | none => acc2) acc
      = acc ++ reprs.flatMap (entityBindPerms roles bmap) := by
  induction reprs generalizing acc with
  | nil => simp
  | cons en rest ih =>
    simp only [List.foldl_cons, List.flatMap_cons]
    rw [ih]
    cases h : lookupA bmap en with
    | none => simp [entityBindPerms, h]
    | some binds =>
      dsimp only
      rw [foldl_append_eq]
      simp [entityBindPerms, h, List.append_assoc]

theorem mem_entityBindPerms_append (roles : List (String × Role))
    (bmap : List (String × List RoleBinding)) (en : String) (rb : RoleBinding)
    (l : List RoleBinding) (hl : lookupA bmap en = some l) (hmem : rb ∈ l)
    (en2 : String) (a : Permission) :
    a ∈ entityBindPerms roles (appendAt bmap en rb) en2 ↔
      a ∈ entityBindPerms roles bmap en2 := by
  by_cases he : en2 = en
  · subst he
    unfold entityBindPerms
    rw [lookupA_appendAt_self, hl]
    dsimp only [Option.getD]
    rw [List.flatMap_append]
    simp only [List.mem_append]
    constructor
    · rintro (h | h)
      · exact h
      · simp only [List.flatMap_cons, List.flatMap_nil, List.append_nil] at h
        exact List.mem_flatMap.mpr ⟨rb, hmem, h⟩
    · exact fun h => Or.inl h
  · unfold entityBindPerms
    rw [lookupA_appendAt_ne _ _ _ _ he]

theorem any_members_congr {α : Type} (p : α → Bool) (l1 l2 : List α)
    (h : ∀ a, a ∈ l1 ↔ a ∈ l2) : l1.any p = l2.any p := by
  cases h1 : l1.any p with
  | true =>
    obtain ⟨a, ha, hp⟩ := List.any_eq_true.mp h1
    exact (List.any_eq_true.mpr ⟨a, (h a).mp ha, hp⟩).symm
  | false =>
    cases h2 : l2.any p with
    | false => rfl
    | true =>
      obtain ⟨a, ha, hp⟩ := List.any_eq_true.mp h2
      have h3 := List.any_eq_true.mpr ⟨a, (h a).mpr ha, hp⟩
      rw [h1] at h3
      exact h3

theorem mem_bind_congr {α β : Type} (g1 g2 : α → List β) (l : List α)
    (h : ∀ x a, a ∈ g1 x ↔ a ∈ g2 x) (a : β) : a ∈ l.flatMap g1 ↔ a ∈ l.flatMap g2 := by
  simp only [List.mem_flatMap]
  constructor
  · rintro ⟨x, hx, ha⟩
    exact ⟨x, hx, (h x a).mp ha⟩
  · rintro ⟨x, hx, ha⟩
    exact ⟨x, hx, (h x a).mpr ha⟩

theorem collect_any_congr (roles : List (String × Role))
    (bmap : List (String × List RoleBinding)) (en : String) (rb : RoleBinding)
    (l : List RoleBinding) (hl : lookupA bmap en = some l) (hmem : rb ∈ l)
    (reprs : List String) (f : Permission → Bool) :
    (reprs.foldl (fun acc en2 =>
        match lookupA (appendAt bmap en rb) en2 with
        | some binds => binds.foldl (fun a rb2 => a ++ rolePermValues roles rb2.roleName) acc
        | none => acc) []).any f
      = (reprs.foldl (fun acc en2 =>
        match lookupA bmap en2 with
        | some binds => binds.foldl (fun a rb2 => a ++ rolePermValues roles rb2.roleName) acc
        | none => acc) []).any f := by
  rw [collect_eq, collect_eq]
  simp only [List.nil_append]
  exact any_members_congr f _ _
    (fun a => mem_bind_congr _ _ reprs
      (fun x2 a2 => mem_entityBindPerms_append roles bmap en rb l hl hmem x2 a2) a)

theorem get_permission_bind_irrel (st : RBACState) (X Y : List (String × List RoleBinding))
    (p : PermRef) :
    get_permission { st with rbindToEnt := X, rbindToRole := Y } p = get_permission st p := rfl

theorem get_entity_bind_irrel (st : RBACState) (X Y : List (String × List RoleBinding))
    (e : EntRef) :
    get_entity { st with rbindToEnt := X, rbindToRole := Y } e = get_entity st e := rfl

theorem get_role_bind_irrel (st : RBACState) (X Y : List (String × List RoleBinding))
    (r : RoleRef) :
    get_role { st with rbindToEnt := X, rbindToRole := Y } r = get_role st r := rfl

theorem get_flattened_bind_irrel (st : RBACState) (X Y : List (String × List RoleBinding))
    (ent : Entity) :
    get_flattened_entities { st with rbindToEnt := X, rbindToRole := Y } ent =
      get_flattened_entities st ent := rfl

theorem can_entity_do_bind_dup (st : RBACState) (en : String) (rb : RoleBinding)
    (l : List RoleBinding) (R2 : List (String × List RoleBinding))
    (hl : lookupA st.rbindToEnt en = some l) (hmem : rb ∈ l)
    (x : EntRef) (p : PermRef) :
    can_entity_do { st with rbindToEnt := appendAt st.rbindToEnt en rb, rbindToRole := R2 } x p
      = can_entity_do st x p := by
  unfold can_entity_do
  rw [get_permission_bind_irrel]
  cases hp : get_permission st p with
  | error err => rfl
  | ok perm =>
    dsimp only
    by_cases hlvl : perm.level = PermissionType.NONE
    · simp only [if_pos hlvl]
    · simp only [if_neg hlvl]
      rw [get_entity_bind_irrel]
      cases hge : get_entity st x with
      | error err => rfl
      | ok ent =>
        dsimp only
        unfold get_entity_permissions
        rw [get_entity_bind_irrel]
        cases hge2 : get_entity st (.byEnt ent) with
        | error err => rfl
        | ok ent2 =>
          dsimp only
          exact congrArg Except.ok
            (collect_any_congr st.roles st.rbindToEnt en rb l hl hmem
              (get_flattened_entities st ent2) (fun q => Permission.eq q perm))

theorem get_role_byName_ok (st : RBACState) (r : String) (rl : Role)
    (hr : lookupA st.roles r = some rl) : get_role st (.byName r) = .ok rl := by
  unfold get_role check_role
  have hc : containsA st.roles r = true := by simp [containsA, hr]
  simp [hc, hr]

theorem get_entity_byName_ok (st : RBACState) (e : String)
    (he : (containsA st.users e || containsA st.groups e) = true) :
    ∃ ent : Entity, get_entity st (.byName e) = .ok ent := by
  cases hu : lookupA st.users e with
  | some u =>
    refine ⟨.user u, ?_⟩
    unfold get_entity check_entity
    simp [he, hu]
  | none =>
    have hg : containsA st.groups e = true := by
      have h2 : containsA st.users e = false := by simp [containsA, hu]
      simpa [h2] using he
    unfold containsA at hg
    obtain ⟨g, hgg⟩ := Option.isSome_iff_exists.mp hg
    refine ⟨.group g, ?_⟩
    unfold get_entity check_entity
    simp [he, hu, hgg]

theorem add_role_to_entity_ok (st : RBACState) (r e : String) (rl : Role) (ent : Entity)
    (hent : get_entity st (.byName e) = .ok ent)
    (hrole : get_role st (.byName r) = .ok rl) :
    add_role_to_entity st (.byName r) (.byName e) =
      .ok { st with
              rbindToEnt := appendAt st.rbindToEnt ent.name ⟨ent.name, rl.name⟩,
              rbindToRole := appendAt st.rbindToRole rl.name ⟨ent.name, rl.name⟩ } := by
  unfold add_role_to_entity
  rw [hent, hrole]

/-- C8: duplicate bindings.  For a registered role and a bare-name-registered
entity (the only entity-reference form the resolver accepts, see C6), binding
the same pair a second time does not raise, appends a second identical
`RoleBinding` to both the entity-indexed and the role-indexed lists without
deduplication, and leaves every subsequent `can_entity_do` outcome (value or
exception) exactly as it was after the single binding. -/
theorem c8_duplicate_binding (st : RBACState) (r e : String) (rl : Role)
    (hr : lookupA st.roles r = some rl)
    (he : (containsA st.users e || containsA st.groups e) = true) :
    ∃ (st1 st2 : RBACState) (ent : Entity),
      add_role_to_entity st (.byName r) (.byName e) = .ok st1 ∧
      add_role_to_entity st1 (.byName r) (.byName e) = .ok st2 ∧
      st1.rbindToEnt = appendAt st.rbindToEnt ent.name ⟨ent.name, rl.name⟩ ∧
      st1.rbindToRole = appendAt st.rbindToRole rl.name ⟨ent.name, rl.name⟩ ∧
      st2.rbindToEnt = appendAt st1.rbindToEnt ent.name ⟨ent.name, rl.name⟩ ∧
      st2.rbindToRole = appendAt st1.rbindToRole rl.name ⟨ent.name, rl.name⟩ ∧
      ∀ (x : EntRef) (p : PermRef), can_entity_do st2 x p = can_entity_do st1 x p := by
  obtain ⟨ent, hent⟩ := get_entity_byName_ok st e he
  have hrole : get_role st (.byName r) = .ok rl := get_role_byName_ok st r rl hr
  refine ⟨_, _, ent,
    add_role_to_entity_ok st r e rl ent hent hrole,
    add_role_to_entity_ok _ r e rl ent ?_ ?_,
    rfl, rfl, rfl, rfl, ?_⟩
  · exact hent
  · exact hrole
  · intro x p
    exact can_entity_do_bind_dup _ ent.name ⟨ent.name, rl.name⟩ _ _
      (lookupA_appendAt_self st.rbindToEnt ent.name ⟨ent.name, rl.name⟩)
      (List.mem_append_right _ (List.mem_cons_self _ _)) x p

/-- C8 witness: the scenario at a concrete state with role `reader` and user
`alice` registered. -/
theorem c8_witness :
    (containsA c8Example.users "alice" || containsA c8Example.groups "alice") = true ∧
    ∃ (st1 st2 : RBACState) (ent : Entity),
      add_role_to_entity c8Example (.byName "reader") (.byName "alice") = .ok st1 ∧
      add_role_to_entity st1 (.byName "reader") (.byName "alice") = .ok st2 ∧
      st1.rbindToEnt = appendAt c8Example.rbindToEnt ent.name ⟨ent.name, "reader"⟩ ∧
      st1.rbindToRole = appendAt c8Example.rbindToRole "reader" ⟨ent.name, "reader"⟩ ∧
      st2.rbindToEnt = appendAt st1.rbindToEnt ent.name ⟨ent.name, "reader"⟩ ∧
      st2.rbindToRole = appendAt st1.rbindToRole "reader" ⟨ent.name, "reader"⟩ ∧
      ∀ (x : EntRef) (p : PermRef), can_entity_do st2 x p = can_entity_do st1 x p :=
  ⟨rfl, c8_duplicate_binding c8Example "reader" "alice" ⟨"reader", []⟩ rfl rfl⟩

end Gears
